import Mathlib

/-
  Verification development for the openPMD-api I/O abstraction layer.

  The definitions below are a shallow embedding of the serial HDF5 backend
  (src/src/IO/HDF5/HDF5IOHandler.cpp).  Native HDF5 library calls are modelled
  as events appended to a trace together with a small model of the file system
  the calls act on; `ASSERT` in the source expands to a no-op outside of DEBUG
  builds, so asserted native calls are modelled as succeeding.  Close calls
  (H5Fclose/H5Gclose/...) release handles and are not storage effects, so they
  are not recorded in the trace.  Output parameter slots (shared cells filled
  by read/list handlers) are modelled as output fields of the handler state.
-/

namespace OpenPMD

/-- Datatype tag set shared between the core and the backends.  The enum header
is not among the given sources; the constructors are reconstructed from the
exhaustive switches in HDF5IOHandler.cpp together with the spec's closed
datatype list. -/
inductive Datatype
  | CHAR
  | UCHAR
  | INT16
  | INT32
  | INT64
  | UINT16
  | UINT32
  | UINT64
  | FLOAT
  | DOUBLE
  | LONG_DOUBLE
  | STRING
  | VEC_CHAR
  | VEC_INT16
  | VEC_INT32
  | VEC_INT64
  | VEC_UCHAR
  | VEC_UINT16
  | VEC_UINT32
  | VEC_UINT64
  | VEC_FLOAT
  | VEC_DOUBLE
  | VEC_LONG_DOUBLE
  | VEC_STRING
  | ARR_DBL_7
  | BOOL
  | DATATYPE
  | UNDEFINED
  deriving DecidableEq, Repr

/-- Access mode of a handler (openPMD/IO/AccessType.hpp, reconstructed from its
uses in HDF5IOHandler.cpp). -/
inductive AccessType
  | READ_ONLY
  | READ_WRITE
  | CREATE
  deriving DecidableEq, Repr

/-- Operation vocabulary of the deferred task queue, exactly the cases of the
switch in HDF5IOHandlerImpl::flush. -/
inductive Operation
  | CREATE_FILE
  | CREATE_PATH
  | CREATE_DATASET
  | EXTEND_DATASET
  | OPEN_FILE
  | OPEN_PATH
  | OPEN_DATASET
  | DELETE_FILE
  | DELETE_PATH
  | DELETE_DATASET
  | DELETE_ATT
  | WRITE_DATASET
  | WRITE_ATT
  | READ_DATASET
  | READ_ATT
  | LIST_PATHS
  | LIST_DATASETS
  | LIST_ATTS
  deriving DecidableEq, Repr

/-- Modelled from the spec: the tagged-union payload of an Attribute
(backend/Attribute.hpp is not among the given sources).  One constructor per
concrete datatype of the closed set; floating-point payloads are carried as
uninterpreted bit patterns, since the value object never computes with them. -/
inductive AttrValue
  | char (c : Nat)
  | uchar (c : Nat)
  | int16 (i : Int)
  | int32 (i : Int)
  | int64 (i : Int)
  | uint16 (u : Nat)
  | uint32 (u : Nat)
  | uint64 (u : Nat)
  | float (bits : Nat)
  | double (bits : Nat)
  | longDouble (bits : Nat)
  | string (s : String)
  | vecChar (l : List Nat)
  | vecInt16 (l : List Int)
  | vecInt32 (l : List Int)
  | vecInt64 (l : List Int)
  | vecUchar (l : List Nat)
  | vecUint16 (l : List Nat)
  | vecUint32 (l : List Nat)
  | vecUint64 (l : List Nat)
  | vecFloat (l : List Nat)
  | vecDouble (l : List Nat)
  | vecLongDouble (l : List Nat)
  | vecString (l : List String)
  | arrDbl7 (a : List Nat)
  | bool (b : Bool)
  deriving DecidableEq, Repr

/-- The datatype tag of a concrete attribute payload. -/
def tagOf : AttrValue → Datatype
  | .char _ => .CHAR
  | .uchar _ => .UCHAR
  | .int16 _ => .INT16
  | .int32 _ => .INT32
  | .int64 _ => .INT64
  | .uint16 _ => .UINT16
  | .uint32 _ => .UINT32
  | .uint64 _ => .UINT64
  | .float _ => .FLOAT
  | .double _ => .DOUBLE
  | .longDouble _ => .LONG_DOUBLE
  | .string _ => .STRING
  | .vecChar _ => .VEC_CHAR
  | .vecInt16 _ => .VEC_INT16
  | .vecInt32 _ => .VEC_INT32
  | .vecInt64 _ => .VEC_INT64
  | .vecUchar _ => .VEC_UCHAR
  | .vecUint16 _ => .VEC_UINT16
  | .vecUint32 _ => .VEC_UINT32
  | .vecUint64 _ => .VEC_UINT64
  | .vecFloat _ => .VEC_FLOAT
  | .vecDouble _ => .VEC_DOUBLE
  | .vecLongDouble _ => .VEC_LONG_DOUBLE
  | .vecString _ => .VEC_STRING
  | .arrDbl7 _ => .ARR_DBL_7
  | .bool _ => .BOOL

/-- Error kinds raised by the backend handlers.  `unsupportedData` models
unsupported_data_error (the only kind the flush loop catches); `runtimeError`
models std::runtime_error; `noSuchFile` models no_such_file_error;
`outOfRange` models std::out_of_range thrown by std::map::at on a missing
parameter; `datatypeMismatch` models a typed get on an attribute holding a
different alternative; `invalidState` guards uses that would be undefined
behaviour in C++ (null parent dereference, missing m_fileIDs entry). -/
inductive IOErr
  | noSuchFile (msg : String)
  | unsupportedData (msg : String)
  | runtimeError (msg : String)
  | outOfRange (key : String)
  | datatypeMismatch
  | invalidState (msg : String)
  deriving DecidableEq, Repr

/-- True exactly for the unsupported_data_error kind, the only exception kind
the flush loop catches. -/
def IOErr.isUnsupportedData : IOErr → Bool
  | .unsupportedData _ => true
  | _ => false

/-- Modelled from the spec: a type-erased attribute value, with the datatype
tag stored next to the payload (the handler code mutates the tag separately,
e.g. `Attribute a(0); a.dtype = d;`). -/
structure Attribute where
  dtype : Datatype
  resource : AttrValue
  deriving DecidableEq, Repr

/-- Modelled from the spec: construct an Attribute from a concrete typed
value; the stored tag always matches the payload. -/
def Attribute.fromValue (v : AttrValue) : Attribute :=
  { dtype := tagOf v, resource := v }

/-- Modelled from the spec: typed retrieval.  `get<T>()` hands back the stored
payload when the requested tag matches the payload's actual alternative and
fails with a datatype-mismatch error otherwise (it never reinterprets bits). -/
def Attribute.get (T : Datatype) (a : Attribute) : Except IOErr AttrValue :=
  if tagOf a.resource = T then Except.ok a.resource
  else Except.error IOErr.datatypeMismatch

/-- Per-node state of the hierarchy (backend/Writable.hpp, reconstructed from
its uses in HDF5IOHandler.cpp and the spec's data model).  `abstractFilePosition`
holds the HDF5FilePosition location string when present; `parent` is the
non-owning back-reference, given as a node id into the handler's node store. -/
structure Writable where
  written : Bool
  dirty : Bool
  abstractFilePosition : Option String
  parent : Option Nat
  deriving DecidableEq, Repr

/-- Named parameters of a task.  The C++ ArgumentMap is a string-keyed map;
here each key the HDF5 handlers consult is a field, `none` meaning the key is
absent (std::map::at then throws std::out_of_range).  `data` only records that
the buffer pointer argument is present. -/
structure ArgumentMap where
  name : Option String := none
  path : Option String := none
  dtype : Option Datatype := none
  extent : Option (List Nat) := none
  offset : Option (List Nat) := none
  chunkSize : Option (List Nat) := none
  compression : Option String := none
  transform : Option String := none
  attributeValue : Option AttrValue := none
  data : Option Unit := none
  deriving DecidableEq, Repr

/-- One deferred unit of work, as consumed by HDF5IOHandlerImpl::flush. -/
structure IOTask where
  operation : Operation
  writable : Nat
  parameter : ArgumentMap
  deriving DecidableEq, Repr

/-- A stored attribute in the modelled file system.  `value` is the normal
case; the other two constructors stand for on-disk attribute types the reader
rejects with unsupported_data_error (non-bool enums and compounds). -/
inductive StoredAttr
  | value (v : AttrValue)
  | unsupportedEnum
  | compound
  deriving DecidableEq, Repr

/-- Model of the storage the native HDF5 calls act on: existing directories,
.h5 files, groups, datasets (with their stored datatype and dimensions) and
attributes (keyed by object position and name). -/
structure FileSystem where
  dirs : List String := []
  files : List String := []
  groups : List String := []
  datasets : List (String × (Datatype × List Nat)) := []
  attributes : List (String × StoredAttr) := []
  deriving DecidableEq, Repr

/-- One native-library side effect, recorded in the order the source performs
the calls (closes are omitted, see the file header comment). -/
inductive Event
  | createDirectories (dir : String)
  | h5fcreate (name : String)
  | h5fopen (name : String)
  | h5gopen (pos : String)
  | h5gcreate (folder : String)
  | h5dcreate (name : String) (dt : Datatype)
  | h5dopen (name : String)
  | h5dwrite (dt : Datatype)
  | h5dread (dt : Datatype)
  | h5dsetExtent (size : List Nat)
  | h5ldelete (path : String)
  | h5oopen (pos : String)
  | h5adelete (name : String)
  | h5acreate (name : String) (dt : Datatype)
  | h5aopen (name : String)
  | h5awrite (name : String) (dt : Datatype)
  | h5aread (name : String)
  | removeFile (name : String)
  deriving DecidableEq, Repr

/-- True exactly for a storage write carrying the UNDEFINED datatype tag
(dataset creation fixes the stored datatype, dataset and attribute writes
store values; attribute creation fixes the stored attribute datatype). -/
def Event.undefWrite : Event → Bool
  | .h5dcreate _ dt => dt == Datatype.UNDEFINED
  | .h5dwrite dt => dt == Datatype.UNDEFINED
  | .h5awrite _ dt => dt == Datatype.UNDEFINED
  | .h5acreate _ dt => dt == Datatype.UNDEFINED
  | _ => false

/-- Combined state of the AbstractIOHandler (directory, access mode, task
queue) and of HDF5IOHandlerImpl (node store, m_fileIDs, m_openFileIDs) plus
the modelled file system, the next fresh native handle id, and the output
cells filled by read/list handlers. -/
structure HandlerState where
  directory : String
  accessType : AccessType
  work : List IOTask := []
  nodes : List (Nat × Writable) := []
  fileIDs : List (Nat × Nat) := []
  openFileIDs : List Nat := []
  fs : FileSystem := {}
  nextHid : Nat := 0
  outDtype : Option Datatype := none
  outExtent : Option (List Nat) := none
  outResource : Option AttrValue := none
  outStrings : Option (List String) := none
  deriving DecidableEq, Repr

/-- Result of one backend handler invocation: either an error (the C++
exception) or the updated state, together with the native-call trace emitted
up to the point of return or throw.  On error the state is unchanged, which
matches the source: no handler mutates node or map state before a throw. -/
abbrev HResult := Except IOErr HandlerState × List Event

/-- Decidable equality of handler results, used to evaluate concrete runs. -/
instance {ε α : Type} [DecidableEq ε] [DecidableEq α] : DecidableEq (Except ε α) :=
  fun a b =>
    match a, b with
    | Except.ok x, Except.ok y =>
      if h : x = y then isTrue (by rw [h]) else isFalse (by intro hc; cases hc; exact h rfl)
    | Except.error x, Except.error y =>
      if h : x = y then isTrue (by rw [h]) else isFalse (by intro hc; cases hc; exact h rfl)
    | Except.ok _, Except.error _ => isFalse (by intro hc; cases hc)
    | Except.error _, Except.ok _ => isFalse (by intro hc; cases hc)

/-- Replace the binding of a key in an association list. -/
def setAssoc {α β : Type} [BEq α] (k : α) (v : β) (l : List (α × β)) : List (α × β) :=
  (k, v) :: l.filter (fun q => !(q.1 == k))

/-- Look a node up in the handler's node store (dereference of a Writable*). -/
def getNode (st : HandlerState) (wid : Nat) : Option Writable :=
  st.nodes.lookup wid

/-- The `m_fileIDs.find(writable)`-then-`find(writable->parent)` lookup pattern
shared by several handlers. -/
def findFileId (st : HandlerState) (wid : Nat) (parent : Option Nat) : Option Nat :=
  match st.fileIDs.lookup wid with
  | some fid => some fid
  | none =>
    match parent with
    | some par => st.fileIDs.lookup par
    | none => none

/-- Fetch a required parameter; a missing key models std::map::at throwing
std::out_of_range. -/
def argAt {α : Type} (key : String) : Option α → Except IOErr α
  | some v => Except.ok v
  | none => Except.error (IOErr.outOfRange key)

/-- Modelled from the spec: auxiliary::starts_with (auxiliary/StringManip.hpp
is not among the given sources). -/
def starts_with (s pre : String) : Bool :=
  pre.data.isPrefixOf s.data

/-- Modelled from the spec: auxiliary::ends_with. -/
def ends_with (s suf : String) : Bool :=
  suf.data.isSuffixOf s.data

/-- Replace the first occurrence of a pattern in a character list. -/
def replaceFirstAux (pat repl : List Char) : List Char → List Char
  | [] => []
  | c :: cs =>
    if pat.isPrefixOf (c :: cs) then repl ++ (c :: cs).drop pat.length
    else c :: replaceFirstAux pat repl cs

/-- Modelled from the spec: auxiliary::replace_first. -/
def replace_first (s target repl : String) : String :=
  String.mk (replaceFirstAux target.data repl.data s.data)

/-- Split a character list on slashes, dropping empty components. -/
def splitSlashAux : List Char → List Char → List String
  | [], acc => if acc.isEmpty then [] else [String.mk acc.reverse]
  | c :: cs, acc =>
    if c = '/' then
      if acc.isEmpty then splitSlashAux cs []
      else String.mk acc.reverse :: splitSlashAux cs []
    else splitSlashAux cs (c :: acc)

/-- Modelled from the spec: auxiliary::split(path, "/", false) as used during
path creation. -/
def splitPathNoEmpty (s : String) : List String :=
  splitSlashAux s.data []

/-- Position-relevant projection of the node store: for each node its position
string and parent id (the only fields the position resolution reads). -/
def posView (l : List (Nat × Writable)) : List (Nat × (Option String × Option Nat)) :=
  l.map (fun q => (q.1, (q.2.abstractFilePosition, q.2.parent)))

/-- Walk up the parent chain concatenating position strings, with fuel
bounding the chain length. -/
def concretePos (view : List (Nat × (Option String × Option Nat))) : Nat → Nat → String
  | 0, _ => ""
  | Nat.succ fuel, wid =>
    match view.lookup wid with
    | none => ""
    | some (pos, par) =>
      match par with
      | none => pos.getD ""
      | some p => concretePos view fuel p ++ pos.getD ""

/-- Modelled from the spec: concrete_h5_file_position (HDF5Auxiliary.hpp is
not among the given sources) resolves a node's storage location by walking
position tokens up the parent chain. -/
def concretePosition (st : HandlerState) (wid : Nat) : String :=
  concretePos (posView st.nodes) (st.nodes.length + 1) wid

/-- Key under which an attribute of a given object position is stored in the
modelled file system. -/
def attrKey (pos name : String) : String :=
  pos ++ "#" ++ name

/-- The H5Tequal chain of HDF5IOHandlerImpl::openDataset maps the stored
native type back into the tag set; types outside the recognized subset raise
"Unknown dataset type". -/
def h5ToDatatype : Datatype → Except IOErr Datatype
  | .CHAR => Except.ok .CHAR
  | .UCHAR => Except.ok .UCHAR
  | .INT16 => Except.ok .INT16
  | .INT32 => Except.ok .INT32
  | .INT64 => Except.ok .INT64
  | .FLOAT => Except.ok .FLOAT
  | .DOUBLE => Except.ok .DOUBLE
  | .UINT16 => Except.ok .UINT16
  | .UINT32 => Except.ok .UINT32
  | .UINT64 => Except.ok .UINT64
  | .STRING => Except.ok .STRING
  | _ => Except.error (IOErr.runtimeError "Unknown dataset type")

/-- HDF5IOHandlerImpl::createFile.  No-op when the node is already written;
otherwise creates the containing directory when absent, creates (truncating)
the .h5 file, marks the node written at position "/", and registers the fresh
file handle. -/
def createFile (st : HandlerState) (wid : Nat) (parameters : ArgumentMap) : HResult :=
  match getNode st wid with
  | none => (Except.error (IOErr.invalidState "createFile: unknown writable"), [])
  | some w =>
    if w.written then (Except.ok st, [])
    else
      let dirExists := st.fs.dirs.contains st.directory
      let evs0 : List Event := if dirExists then [] else [Event.createDirectories st.directory]
      let fs0 := if dirExists then st.fs else { st.fs with dirs := st.directory :: st.fs.dirs }
      match argAt "name" parameters.name with
      | Except.error e => (Except.error e, evs0)
      | Except.ok n =>
        let name0 := st.directory ++ n
        let name := if ends_with name0 ".h5" then name0 else name0 ++ ".h5"
        let id := st.nextHid
        let fs1 := if fs0.files.contains name then fs0 else { fs0 with files := name :: fs0.files }
        (Except.ok { st with
            fs := fs1
            nextHid := id + 1
            nodes := setAssoc wid { w with written := true, abstractFilePosition := some "/" } st.nodes
            fileIDs := setAssoc wid id st.fileIDs
            openFileIDs := id :: st.openFileIDs },
         evs0 ++ [Event.h5fcreate name])

/-- HDF5IOHandlerImpl::createPath.  No-op when the node is already written;
otherwise sanitizes the path, opens the position of the parent (or of the node
itself for the root) and creates one group per path component. -/
def createPath (st : HandlerState) (wid : Nat) (parameters : ArgumentMap) : HResult :=
  match getNode st wid with
  | none => (Except.error (IOErr.invalidState "createPath: unknown writable"), [])
  | some w =>
    if w.written then (Except.ok st, [])
    else
      match argAt "path" parameters.path with
      | Except.error e => (Except.error e, [])
      | Except.ok p0 =>
        let p1 := if starts_with p0 "/" then replace_first p0 "/" "" else p0
        let p := if ends_with p1 "/" then p1 else p1 ++ "/"
        let position := match w.parent with
          | some par => par
          | none => wid
        match st.fileIDs.lookup position with
        | none => (Except.error (IOErr.invalidState "createPath: no open file for position"), [])
        | some fid =>
          let base := concretePosition st position
          let folders := splitPathNoEmpty p
          (Except.ok { st with
              fs := { st.fs with groups := (base ++ p) :: st.fs.groups }
              nodes := setAssoc wid { w with written := true, abstractFilePosition := some p } st.nodes
              fileIDs := setAssoc wid fid st.fileIDs },
           Event.h5gopen base :: folders.map Event.h5gcreate)

/-- HDF5IOHandlerImpl::createDataset.  No-op when the node is already written;
otherwise sanitizes the name, substitutes BOOL for an UNDEFINED requested
datatype, and creates the chunked dataset at the node's position. -/
def createDataset (st : HandlerState) (wid : Nat) (parameters : ArgumentMap) : HResult :=
  match getNode st wid with
  | none => (Except.error (IOErr.invalidState "createDataset: unknown writable"), [])
  | some w =>
    if w.written then (Except.ok st, [])
    else
      match argAt "name" parameters.name with
      | Except.error e => (Except.error e, [])
      | Except.ok n0 =>
        let n1 := if starts_with n0 "/" then replace_first n0 "/" "" else n0
        let name := if ends_with n1 "/" then replace_first n1 "/" "" else n1
        match findFileId st wid w.parent with
        | none => (Except.error (IOErr.invalidState "createDataset: no open file"), [])
        | some fid =>
          let evs0 := [Event.h5gopen (concretePosition st wid)]
          match argAt "dtype" parameters.dtype with
          | Except.error e => (Except.error e, evs0)
          | Except.ok d0 =>
            let d := if d0 = Datatype.UNDEFINED then Datatype.BOOL else d0
            match argAt "extent" parameters.extent with
            | Except.error e => (Except.error e, evs0)
            | Except.ok ext =>
              match argAt "chunkSize" parameters.chunkSize with
              | Except.error e => (Except.error e, evs0)
              | Except.ok _chunk =>
                match argAt "compression" parameters.compression with
                | Except.error e => (Except.error e, evs0)
                | Except.ok _compression =>
                  match argAt "transform" parameters.transform with
                  | Except.error e => (Except.error e, evs0)
                  | Except.ok _transform =>
                    (Except.ok { st with
                        fs := { st.fs with datasets := setAssoc name (d, ext) st.fs.datasets }
                        nodes := setAssoc wid { w with written := true, abstractFilePosition := some name } st.nodes
                        fileIDs := setAssoc wid fid st.fileIDs },
                     evs0 ++ [Event.h5dcreate name d])

/-- HDF5IOHandlerImpl::extendDataset.  Fails up front on an unwritten node;
otherwise opens the dataset under the parent's position and sets its extent. -/
def extendDataset (st : HandlerState) (wid : Nat) (parameters : ArgumentMap) : HResult :=
  match getNode st wid with
  | none => (Except.error (IOErr.invalidState "extendDataset: unknown writable"), [])
  | some w =>
    if !w.written then
      (Except.error (IOErr.runtimeError "Extending an unwritten Dataset is not possible."), [])
    else
      match w.parent with
      | none => (Except.error (IOErr.invalidState "extendDataset: no parent"), [])
      | some par =>
        match st.fileIDs.lookup par with
        | none => (Except.error (IOErr.invalidState "extendDataset: no open file"), [])
        | some _fid =>
          let evs0 := [Event.h5gopen (concretePosition st par)]
          match argAt "name" parameters.name with
          | Except.error e => (Except.error e, evs0)
          | Except.ok n0 =>
            let n1 := if starts_with n0 "/" then replace_first n0 "/" "" else n0
            let name := if ends_with n1 "/" then n1 else n1 ++ "/"
            let evs1 := evs0 ++ [Event.h5dopen name]
            match argAt "extent" parameters.extent with
            | Except.error e => (Except.error e, evs1)
            | Except.ok size =>
              (Except.ok { st with
                  fs := { st.fs with datasets :=
                    st.fs.datasets.map (fun q => if q.1 == name then (q.1, (q.2.1, size)) else q) } },
               evs1 ++ [Event.h5dsetExtent size])

/-- HDF5IOHandlerImpl::openFile.  Never consults the node's written flag;
fails when the directory or file is missing, otherwise registers a fresh file
handle and marks the node written at position "/". -/
def openFile (st : HandlerState) (wid : Nat) (parameters : ArgumentMap) : HResult :=
  match getNode st wid with
  | none => (Except.error (IOErr.invalidState "openFile: unknown writable"), [])
  | some w =>
    if !st.fs.dirs.contains st.directory then
      (Except.error (IOErr.noSuchFile ("Supplied directory is not valid: " ++ st.directory)), [])
    else
      match argAt "name" parameters.name with
      | Except.error e => (Except.error e, [])
      | Except.ok n =>
        let name0 := st.directory ++ n
        let name := if ends_with name0 ".h5" then name0 else name0 ++ ".h5"
        if !st.fs.files.contains name then
          (Except.error (IOErr.noSuchFile ("Failed to open HDF5 file " ++ name)), [Event.h5fopen name])
        else
          let id := st.nextHid
          (Except.ok { st with
              nextHid := id + 1
              nodes := setAssoc wid { w with written := true, abstractFilePosition := some "/" } st.nodes
              fileIDs := setAssoc wid id st.fileIDs
              openFileIDs := id :: st.openFileIDs },
           [Event.h5fopen name])

/-- HDF5IOHandlerImpl::openPath.  Never consults the node's written flag;
opens the sanitized path under the parent's position and marks the node
written there. -/
def openPath (st : HandlerState) (wid : Nat) (parameters : ArgumentMap) : HResult :=
  match getNode st wid with
  | none => (Except.error (IOErr.invalidState "openPath: unknown writable"), [])
  | some w =>
    match w.parent with
    | none => (Except.error (IOErr.invalidState "openPath: no parent"), [])
    | some par =>
      match st.fileIDs.lookup par with
      | none => (Except.error (IOErr.invalidState "openPath: no open file"), [])
      | some fid =>
        let evs0 := [Event.h5gopen (concretePosition st par)]
        match argAt "path" parameters.path with
        | Except.error e => (Except.error e, evs0)
        | Except.ok p0 =>
          let p1 := if starts_with p0 "/" then replace_first p0 "/" "" else p0
          let p := if ends_with p1 "/" then p1 else p1 ++ "/"
          (Except.ok { st with
              nodes := setAssoc wid { w with written := true, abstractFilePosition := some p } st.nodes
              fileIDs := setAssoc wid fid st.fileIDs },
           evs0 ++ [Event.h5gopen p])

/-- HDF5IOHandlerImpl::openDataset.  Never consults the node's written flag;
opens the dataset under the parent's position, reports its datatype and extent
through the task's output slots, and marks the node written. -/
def openDataset (st : HandlerState) (wid : Nat) (parameters : ArgumentMap) : HResult :=
  match getNode st wid with
  | none => (Except.error (IOErr.invalidState "openDataset: unknown writable"), [])
  | some w =>
    match w.parent with
    | none => (Except.error (IOErr.invalidState "openDataset: no parent"), [])
    | some par =>
      match st.fileIDs.lookup par with
      | none => (Except.error (IOErr.invalidState "openDataset: no open file"), [])
      | some fid =>
        let evs0 := [Event.h5gopen (concretePosition st par)]
        match argAt "name" parameters.name with
        | Except.error e => (Except.error e, evs0)
        | Except.ok n0 =>
          let n1 := if starts_with n0 "/" then replace_first n0 "/" "" else n0
          let name := if ends_with n1 "/" then n1 else n1 ++ "/"
          let evs1 := evs0 ++ [Event.h5dopen name]
          match st.fs.datasets.lookup name with
          | none => (Except.error (IOErr.invalidState "openDataset: no such dataset"), evs1)
          | some (dstored, dims) =>
            match h5ToDatatype dstored with
            | Except.error e => (Except.error e, evs1)
            | Except.ok d =>
              (Except.ok { st with
                  outDtype := some d
                  outExtent := some dims
                  nodes := setAssoc wid { w with written := true, abstractFilePosition := some name } st.nodes
                  fileIDs := setAssoc wid fid st.fileIDs },
               evs1)

/-- HDF5IOHandlerImpl::deleteFile.  Fails up front under read-only access;
silent no-op on an unwritten node; otherwise closes the handle, removes the
file (failing when it does not exist), and resets the node to unwritten with
its position cleared. -/
def deleteFile (st : HandlerState) (wid : Nat) (parameters : ArgumentMap) : HResult :=
  if st.accessType = AccessType.READ_ONLY then
    (Except.error (IOErr.runtimeError "Deleting a file opened as read only is not possible."), [])
  else
    match getNode st wid with
    | none => (Except.error (IOErr.invalidState "deleteFile: unknown writable"), [])
    | some w =>
      if !w.written then (Except.ok st, [])
      else
        let fileId := (st.fileIDs.lookup wid).getD 0
        match argAt "name" parameters.name with
        | Except.error e => (Except.error e, [])
        | Except.ok n =>
          let name0 := st.directory ++ n
          let name := if ends_with name0 ".h5" then name0 else name0 ++ ".h5"
          if !st.fs.files.contains name then
            (Except.error (IOErr.runtimeError ("File does not exist: " ++ name)), [])
          else
            (Except.ok { st with
                fs := { st.fs with files := st.fs.files.filter (fun f => !(f == name)) }
                nodes := setAssoc wid { w with written := false, abstractFilePosition := none } st.nodes
                fileIDs := st.fileIDs.filter (fun q => !(q.1 == wid))
                openFileIDs := st.openFileIDs.filter (fun i => !(i == fileId)) },
             [Event.removeFile name])

/-- HDF5IOHandlerImpl::deletePath.  Fails up front under read-only access;
silent no-op on an unwritten node; otherwise unlinks the sanitized path (plus
the node's own location) from the parent's position and resets the node. -/
def deletePath (st : HandlerState) (wid : Nat) (parameters : ArgumentMap) : HResult :=
  if st.accessType = AccessType.READ_ONLY then
    (Except.error (IOErr.runtimeError "Deleting a path in a file opened as read only is not possible."), [])
  else
    match getNode st wid with
    | none => (Except.error (IOErr.invalidState "deletePath: unknown writable"), [])
    | some w =>
      if !w.written then (Except.ok st, [])
      else
        match argAt "path" parameters.path with
        | Except.error e => (Except.error e, [])
        | Except.ok p0 =>
          let p1 := if starts_with p0 "/" then replace_first p0 "/" "" else p0
          let p := if ends_with p1 "/" then p1 else p1 ++ "/"
          match findFileId st wid w.parent, w.parent with
          | none, _ => (Except.error (IOErr.invalidState "deletePath: no open file"), [])
          | some _, none => (Except.error (IOErr.invalidState "deletePath: no parent"), [])
          | some _fid, some par =>
            let base := concretePosition st par
            let full := p ++ (w.abstractFilePosition.getD "")
            (Except.ok { st with
                fs := { st.fs with groups := st.fs.groups.filter (fun g => !(g == base ++ full)) }
                nodes := setAssoc wid { w with written := false, abstractFilePosition := none } st.nodes
                fileIDs := st.fileIDs.filter (fun q => !(q.1 == wid)) },
             [Event.h5gopen base, Event.h5ldelete full])

/-- HDF5IOHandlerImpl::deleteDataset.  Fails up front under read-only access;
silent no-op on an unwritten node; otherwise unlinks the dataset from the
parent's position and resets the node. -/
def deleteDataset (st : HandlerState) (wid : Nat) (parameters : ArgumentMap) : HResult :=
  if st.accessType = AccessType.READ_ONLY then
    (Except.error (IOErr.runtimeError "Deleting a path in a file opened as read only is not possible."), [])
  else
    match getNode st wid with
    | none => (Except.error (IOErr.invalidState "deleteDataset: unknown writable"), [])
    | some w =>
      if !w.written then (Except.ok st, [])
      else
        match argAt "name" parameters.name with
        | Except.error e => (Except.error e, [])
        | Except.ok n0 =>
          let n1 := if starts_with n0 "/" then replace_first n0 "/" "" else n0
          let name := if ends_with n1 "/" then n1 else n1 ++ "/"
          match findFileId st wid w.parent, w.parent with
          | none, _ => (Except.error (IOErr.invalidState "deleteDataset: no open file"), [])
          | some _, none => (Except.error (IOErr.invalidState "deleteDataset: no parent"), [])
          | some _fid, some par =>
            let base := concretePosition st par
            let full := name ++ (w.abstractFilePosition.getD "")
            (Except.ok { st with
                fs := { st.fs with datasets := st.fs.datasets.filter (fun q => !(q.1 == full)) }
                nodes := setAssoc wid { w with written := false, abstractFilePosition := none } st.nodes
                fileIDs := st.fileIDs.filter (fun q => !(q.1 == wid)) },
             [Event.h5gopen base, Event.h5ldelete full])

/-- HDF5IOHandlerImpl::deleteAttribute.  Fails up front under read-only
access; silent no-op on an unwritten node; otherwise deletes the attribute at
the node's position.  The node's written flag, position and m_fileIDs entry
are left untouched. -/
def deleteAttribute (st : HandlerState) (wid : Nat) (parameters : ArgumentMap) : HResult :=
  if st.accessType = AccessType.READ_ONLY then
    (Except.error (IOErr.runtimeError "Deleting an attribute in a file opened as read only is not possible."), [])
  else
    match getNode st wid with
    | none => (Except.error (IOErr.invalidState "deleteAttribute: unknown writable"), [])
    | some w =>
      if !w.written then (Except.ok st, [])
      else
        match argAt "name" parameters.name with
        | Except.error e => (Except.error e, [])
        | Except.ok name =>
          match findFileId st wid w.parent with
          | none => (Except.error (IOErr.invalidState "deleteAttribute: no open file"), [])
          | some _fid =>
            let pos := concretePosition st wid
            (Except.ok { st with
                fs := { st.fs with attributes :=
                  st.fs.attributes.filter (fun q => !(q.1 == attrKey pos name)) } },
             [Event.h5oopen pos, Event.h5adelete name])

/-- HDF5IOHandlerImpl::writeDataset.  Opens the dataset at the node's
position, checks the requested datatype and writes the buffer; UNDEFINED and
the meta datatype are rejected before the write, as are datatypes outside the
implemented subset. -/
def writeDataset (st : HandlerState) (wid : Nat) (parameters : ArgumentMap) : HResult :=
  match getNode st wid with
  | none => (Except.error (IOErr.invalidState "writeDataset: unknown writable"), [])
  | some w =>
    match findFileId st wid w.parent with
    | none => (Except.error (IOErr.invalidState "writeDataset: no open file"), [])
    | some fid =>
      let evs0 := [Event.h5dopen (concretePosition st wid)]
      match argAt "offset" parameters.offset with
      | Except.error e => (Except.error e, evs0)
      | Except.ok _off =>
        match argAt "extent" parameters.extent with
        | Except.error e => (Except.error e, evs0)
        | Except.ok _ext =>
          match argAt "data" parameters.data with
          | Except.error e => (Except.error e, evs0)
          | Except.ok _data =>
            match argAt "dtype" parameters.dtype with
            | Except.error e => (Except.error e, evs0)
            | Except.ok dt =>
              match dt with
              | .DOUBLE | .FLOAT | .INT16 | .INT32 | .INT64
              | .UINT16 | .UINT32 | .UINT64 | .CHAR | .UCHAR | .BOOL =>
                (Except.ok { st with fileIDs := setAssoc wid fid st.fileIDs },
                 evs0 ++ [Event.h5dwrite dt])
              | .UNDEFINED =>
                (Except.error (IOErr.runtimeError "Unknown Attribute datatype"), evs0)
              | .DATATYPE =>
                (Except.error (IOErr.runtimeError "Meta-Datatype leaked into IO"), evs0)
              | _ =>
                (Except.error (IOErr.runtimeError "Datatype not implemented in HDF5 IO"), evs0)

/-- HDF5IOHandlerImpl::writeAttribute.  Opens the object at the node's
position, creates the attribute when absent (with the attribute value's native
datatype, or the bool enum), then writes the typed value; UNDEFINED and the
meta datatype are rejected before the write, and a typed get on a mismatched
payload fails instead of reinterpreting. -/
def writeAttribute (st : HandlerState) (wid : Nat) (parameters : ArgumentMap) : HResult :=
  match getNode st wid with
  | none => (Except.error (IOErr.invalidState "writeAttribute: unknown writable"), [])
  | some w =>
    match findFileId st wid w.parent with
    | none => (Except.error (IOErr.invalidState "writeAttribute: no open file"), [])
    | some fid =>
      let pos := concretePosition st wid
      let evs0 := [Event.h5oopen pos]
      match argAt "name" parameters.name with
      | Except.error e => (Except.error e, evs0)
      | Except.ok name =>
        match argAt "attribute" parameters.attributeValue with
        | Except.error e => (Except.error e, evs0)
        | Except.ok v =>
          let att := Attribute.fromValue v
          match argAt "dtype" parameters.dtype with
          | Except.error e => (Except.error e, evs0)
          | Except.ok dt =>
            let dataType := if dt = Datatype.BOOL then Datatype.BOOL else att.dtype
            let key := attrKey pos name
            let present := (st.fs.attributes.lookup key).isSome
            let evs1 := evs0 ++ [if present then Event.h5aopen name else Event.h5acreate name dataType]
            match dt with
            | .UNDEFINED | .DATATYPE =>
              (Except.error (IOErr.runtimeError "Unknown Attribute datatype"), evs1)
            | _ =>
              match Attribute.get dt att with
              | Except.error e => (Except.error e, evs1)
              | Except.ok val =>
                (Except.ok { st with
                    fs := { st.fs with attributes := setAssoc key (StoredAttr.value val) st.fs.attributes }
                    fileIDs := setAssoc wid fid st.fileIDs },
                 evs1 ++ [Event.h5awrite name dataType])

/-- HDF5IOHandlerImpl::readDataset.  Opens the dataset at the node's position,
checks the requested datatype (same rejection set as writeDataset) and reads
into the caller's buffer; node state is untouched. -/
def readDataset (st : HandlerState) (wid : Nat) (parameters : ArgumentMap) : HResult :=
  match getNode st wid with
  | none => (Except.error (IOErr.invalidState "readDataset: unknown writable"), [])
  | some w =>
    match findFileId st wid w.parent with
    | none => (Except.error (IOErr.invalidState "readDataset: no open file"), [])
    | some _fid =>
      let evs0 := [Event.h5dopen (concretePosition st wid)]
      match argAt "offset" parameters.offset with
      | Except.error e => (Except.error e, evs0)
      | Except.ok _off =>
        match argAt "extent" parameters.extent with
        | Except.error e => (Except.error e, evs0)
        | Except.ok _ext =>
          match argAt "data" parameters.data with
          | Except.error e => (Except.error e, evs0)
          | Except.ok _data =>
            match argAt "dtype" parameters.dtype with
            | Except.error e => (Except.error e, evs0)
            | Except.ok dt =>
              match dt with
              | .DOUBLE | .FLOAT | .INT16 | .INT32 | .INT64
              | .UINT16 | .UINT32 | .UINT64 | .CHAR | .UCHAR | .BOOL =>
                (Except.ok st, evs0 ++ [Event.h5dread dt])
              | .UNDEFINED =>
                (Except.error (IOErr.runtimeError "Unknown Attribute datatype"), evs0)
              | .DATATYPE =>
                (Except.error (IOErr.runtimeError "Meta-Datatype leaked into IO"), evs0)
              | _ =>
                (Except.error (IOErr.runtimeError "Datatype not implemented in HDF5 IO"), evs0)

/-- HDF5IOHandlerImpl::readAttribute.  Opens the attribute at the node's
position and reconstructs a typed Attribute from the stored data (the long
H5Tequal chain is modelled by the tagged stored value); non-bool enums and
compound types raise unsupported_data_error; the result is reported through
the task's output slots. -/
def readAttribute (st : HandlerState) (wid : Nat) (parameters : ArgumentMap) : HResult :=
  match getNode st wid with
  | none => (Except.error (IOErr.invalidState "readAttribute: unknown writable"), [])
  | some w =>
    match findFileId st wid w.parent with
    | none => (Except.error (IOErr.invalidState "readAttribute: no open file"), [])
    | some _fid =>
      let pos := concretePosition st wid
      let evs0 := [Event.h5oopen pos]
      match argAt "name" parameters.name with
      | Except.error e => (Except.error e, evs0)
      | Except.ok name =>
        let evs1 := evs0 ++ [Event.h5aopen name]
        match st.fs.attributes.lookup (attrKey pos name) with
        | none => (Except.error (IOErr.invalidState "readAttribute: no such attribute"), evs1)
        | some StoredAttr.unsupportedEnum =>
          (Except.error (IOErr.unsupportedData "Unsupported attribute enumeration"), evs1)
        | some StoredAttr.compound =>
          (Except.error (IOErr.unsupportedData "Compound attribute type not supported"), evs1)
        | some (StoredAttr.value v) =>
          (Except.ok { st with outDtype := some (tagOf v), outResource := some v },
           evs1 ++ [Event.h5aread name])

/-- HDF5IOHandlerImpl::listPaths.  Reports the group names under the node's
position through the task's output slot; node state is untouched. -/
def listPaths (st : HandlerState) (wid : Nat) (_parameters : ArgumentMap) : HResult :=
  match getNode st wid with
  | none => (Except.error (IOErr.invalidState "listPaths: unknown writable"), [])
  | some w =>
    match findFileId st wid w.parent with
    | none => (Except.error (IOErr.invalidState "listPaths: no open file"), [])
    | some _fid =>
      let pos := concretePosition st wid
      (Except.ok { st with outStrings := some (st.fs.groups.filter (fun g => starts_with g pos)) },
       [Event.h5gopen pos])

/-- HDF5IOHandlerImpl::listDatasets.  Reports the dataset names under the
node's position through the task's output slot; node state is untouched. -/
def listDatasets (st : HandlerState) (wid : Nat) (_parameters : ArgumentMap) : HResult :=
  match getNode st wid with
  | none => (Except.error (IOErr.invalidState "listDatasets: unknown writable"), [])
  | some w =>
    match findFileId st wid w.parent with
    | none => (Except.error (IOErr.invalidState "listDatasets: no open file"), [])
    | some _fid =>
      let pos := concretePosition st wid
      let names := (st.fs.datasets.map (fun q => q.1)).filter (fun n => starts_with n pos)
      (Except.ok { st with outStrings := some names }, [Event.h5gopen pos])

/-- HDF5IOHandlerImpl::listAttributes.  Reports the attribute names of the
node's position through the task's output slot; node state is untouched. -/
def listAttributes (st : HandlerState) (wid : Nat) (_parameters : ArgumentMap) : HResult :=
  match getNode st wid with
  | none => (Except.error (IOErr.invalidState "listAttributes: unknown writable"), [])
  | some w =>
    match findFileId st wid w.parent with
    | none => (Except.error (IOErr.invalidState "listAttributes: no open file"), [])
    | some _fid =>
      let pos := concretePosition st wid
      let names := (st.fs.attributes.map (fun q => q.1)).filter (fun k => starts_with k (attrKey pos ""))
      (Except.ok { st with outStrings := some names }, [Event.h5oopen pos])

/-- The dispatch switch of HDF5IOHandlerImpl::flush: route one task to the
handler of its operation kind. -/
def dispatch (st : HandlerState) (t : IOTask) : HResult :=
  match t.operation with
  | Operation.CREATE_FILE => createFile st t.writable t.parameter
  | Operation.CREATE_PATH => createPath st t.writable t.parameter
  | Operation.CREATE_DATASET => createDataset st t.writable t.parameter
  | Operation.EXTEND_DATASET => extendDataset st t.writable t.parameter
  | Operation.OPEN_FILE => openFile st t.writable t.parameter
  | Operation.OPEN_PATH => openPath st t.writable t.parameter
  | Operation.OPEN_DATASET => openDataset st t.writable t.parameter
  | Operation.DELETE_FILE => deleteFile st t.writable t.parameter
  | Operation.DELETE_PATH => deletePath st t.writable t.parameter
  | Operation.DELETE_DATASET => deleteDataset st t.writable t.parameter
  | Operation.DELETE_ATT => deleteAttribute st t.writable t.parameter
  | Operation.WRITE_DATASET => writeDataset st t.writable t.parameter
  | Operation.WRITE_ATT => writeAttribute st t.writable t.parameter
  | Operation.READ_DATASET => readDataset st t.writable t.parameter
  | Operation.READ_ATT => readAttribute st t.writable t.parameter
  | Operation.LIST_PATHS => listPaths st t.writable t.parameter
  | Operation.LIST_DATASETS => listDatasets st t.writable t.parameter
  | Operation.LIST_ATTS => listAttributes st t.writable t.parameter

/-- Outcome of one flush call: the final state (whose `work` field is the
remaining queue), the concatenated native-call trace, the tasks dispatched in
order, and the first error when one occurred. -/
structure FlushOutcome where
  state : HandlerState
  events : List Event
  dispatched : List IOTask
  error : Option IOErr
  deriving DecidableEq, Repr

/-- The drain loop of HDF5IOHandlerImpl::flush, recursing over the queue.  On
success the task is popped and the loop continues; on an
unsupported_data_error the task is popped and the error propagates; on any
other error the error propagates with the task still at the head of the
queue (only unsupported_data_error is caught by the loop's try block). -/
def flushAux : HandlerState → List IOTask → FlushOutcome
  | st, [] => { state := { st with work := [] }, events := [], dispatched := [], error := none }
  | st, t :: rest =>
    match dispatch st t with
    | (Except.ok st1, evs) =>
      let out := flushAux { st1 with work := rest } rest
      { state := out.state
        events := evs ++ out.events
        dispatched := t :: out.dispatched
        error := out.error }
    | (Except.error e, evs) =>
      { state := { st with work := if e.isUnsupportedData then rest else t :: rest }
        events := evs
        dispatched := [t]
        error := some e }

/-- HDF5IOHandlerImpl::flush: drain the handler's queue from the front. -/
def flush (st : HandlerState) : FlushOutcome :=
  flushAux st st.work

/-- Modelled from the spec: AbstractIOHandler::enqueue appends a task at the
tail of the ordered queue (AbstractIOHandler.hpp is not among the given
sources; `m_work` is a std::queue drained from the front by flush). -/
def enqueue (st : HandlerState) (t : IOTask) : HandlerState :=
  { st with work := st.work ++ [t] }

/-- An already-written file node used by concrete witnesses. -/
def exWritten : Writable :=
  { written := true, dirty := false, abstractFilePosition := some "/", parent := none }

/-- An already-written group node below node 0, used by concrete witnesses. -/
def exChild : Writable :=
  { written := true, dirty := false, abstractFilePosition := some "g/", parent := some 0 }

/-- An unwritten root-level node used by concrete witnesses. -/
def exUnwritten : Writable :=
  { written := false, dirty := false, abstractFilePosition := none, parent := none }

/-- An already-written dataset node below node 0, used by concrete witnesses. -/
def exDsNode : Writable :=
  { written := true, dirty := false, abstractFilePosition := some "x/", parent := some 0 }

/-- An unwritten node below node 0, used by concrete witnesses. -/
def exChildUnwritten : Writable :=
  { written := false, dirty := false, abstractFilePosition := none, parent := some 0 }

/-- A concrete read-write handler state with an open file (node 0), a group
(node 1), unwritten nodes (2, 4, 5), a dataset node (3), and a small modelled
file system, used by concrete witnesses. -/
def exBase : HandlerState :=
  { directory := "d/"
    accessType := AccessType.READ_WRITE
    nodes := [(0, exWritten), (1, exChild), (2, exUnwritten), (3, exDsNode),
              (4, exChildUnwritten), (5, exChildUnwritten)]
    fileIDs := [(0, 7), (1, 7), (3, 7)]
    openFileIDs := [7]
    fs := { dirs := ["d/"]
            files := ["d/f.h5"]
            groups := ["/g/"]
            datasets := [("x/", (Datatype.DOUBLE, [4]))]
            attributes := [(attrKey "/g/" "a", StoredAttr.value (AttrValue.string "m"))] }
    nextHid := 8 }

/-- exBase with one queued EXTEND_DATASET task whose handler fails (node 2 is
unwritten), used by concrete witnesses. -/
def exFailSt : HandlerState :=
  { exBase with work := [{ operation := Operation.EXTEND_DATASET, writable := 2, parameter := {} }] }

/-- The state deleteFile produces from exBase on node 0, used by witnesses. -/
def exAfterDeleteFile : HandlerState :=
  { exBase with
      fs := { exBase.fs with files := [] }
      nodes := setAssoc 0 { exWritten with written := false, abstractFilePosition := none } exBase.nodes
      fileIDs := [(1, 7), (3, 7)]
      openFileIDs := [] }

/-- The state deletePath produces from exBase on node 1, used by witnesses. -/
def exAfterDeletePath : HandlerState :=
  { exBase with
      nodes := setAssoc 1 { exChild with written := false, abstractFilePosition := none } exBase.nodes
      fileIDs := [(0, 7), (3, 7)] }

/-- The state deleteDataset produces from exBase on node 3, used by
witnesses. -/
def exAfterDeleteDataset : HandlerState :=
  { exBase with
      nodes := setAssoc 3 { exDsNode with written := false, abstractFilePosition := none } exBase.nodes
      fileIDs := [(0, 7), (1, 7)] }

/-- The state deleteAttribute produces from exBase on node 1, used by
witnesses. -/
def exAfterDeleteAttr : HandlerState :=
  { exBase with fs := { exBase.fs with attributes := [] } }

/-- The state openFile produces from exBase on node 2, used by witnesses. -/
def exAfterOpenFile : HandlerState :=
  { exBase with
      nextHid := 9
      nodes := setAssoc 2 { exUnwritten with written := true, abstractFilePosition := some "/" } exBase.nodes
      fileIDs := setAssoc 2 8 exBase.fileIDs
      openFileIDs := 8 :: exBase.openFileIDs }

/-- The state openPath produces from exBase on node 4, used by witnesses. -/
def exAfterOpenPath : HandlerState :=
  { exBase with
      nodes := setAssoc 4 { exChildUnwritten with written := true, abstractFilePosition := some "g/" } exBase.nodes
      fileIDs := setAssoc 4 7 exBase.fileIDs }

/-- The state openDataset produces from exBase on node 5, used by witnesses. -/
def exAfterOpenDataset : HandlerState :=
  { exBase with
      outDtype := some Datatype.DOUBLE
      outExtent := some [4]
      nodes := setAssoc 5 { exChildUnwritten with written := true, abstractFilePosition := some "x/" } exBase.nodes
      fileIDs := setAssoc 5 7 exBase.fileIDs }

/-- Looking up the key just set in an association list yields the new value. -/
theorem lookup_setAssoc_self {α β : Type} [BEq α] [LawfulBEq α] (k : α) (v : β)
    (l : List (α × β)) : (setAssoc k v l).lookup k = some v := by
  simp [setAssoc, List.lookup]

/-- No concrete attribute payload carries the UNDEFINED tag. -/
theorem tagOf_beq_undefined (v : AttrValue) : (tagOf v == Datatype.UNDEFINED) = false := by
  cases v <;> rfl

/-- Setting the same key twice in an association list keeps only the second
binding. -/
theorem setAssoc_setAssoc {α β : Type} [BEq α] [LawfulBEq α] (k : α) (v1 v2 : β)
    (l : List (α × β)) : setAssoc k v2 (setAssoc k v1 l) = setAssoc k v2 l := by
  simp [setAssoc, List.filter_filter]

/-- Claim C2: invoking a CREATE_* handler (create file, create path, create
dataset) on a node whose written flag is already true is a no-op: the handler
returns the state unchanged (so the position token is unchanged) and emits no
backend side effect. -/
theorem create_twice_is_noop_when_written (st : HandlerState) (wid : Nat)
    (p : ArgumentMap) (w : Writable) (hn : getNode st wid = some w)
    (hw : w.written = true) :
    createFile st wid p = (Except.ok st, [])
    ∧ createPath st wid p = (Except.ok st, [])
    ∧ createDataset st wid p = (Except.ok st, []) := by
  refine ⟨?_, ?_, ?_⟩ <;> simp [createFile, createPath, createDataset, hn, hw]

/-- Witness for C2 at a concrete already-written node. -/
theorem create_twice_is_noop_when_written_witness :
    getNode exBase 0 = some exWritten ∧ exWritten.written = true
    ∧ createFile exBase 0 { name := some "f" } = (Except.ok exBase, [])
    ∧ createPath exBase 0 { path := some "g" } = (Except.ok exBase, [])
    ∧ createDataset exBase 0 { name := some "x" } = (Except.ok exBase, []) :=
  ⟨by decide, by decide,
   (create_twice_is_noop_when_written exBase 0 { name := some "f" } exWritten
      (by decide) (by decide)).1,
   (create_twice_is_noop_when_written exBase 0 { path := some "g" } exWritten
      (by decide) (by decide)).2.1,
   (create_twice_is_noop_when_written exBase 0 { name := some "x" } exWritten
      (by decide) (by decide)).2.2⟩

/-- Claim C5: EXTEND_DATASET on a node with written == false always fails with
the logic error "Extending an unwritten Dataset is not possible." and emits no
backend call. -/
theorem extend_unwritten_dataset_fails (st : HandlerState) (wid : Nat)
    (p : ArgumentMap) (w : Writable) (hn : getNode st wid = some w)
    (hw : w.written = false) :
    extendDataset st wid p
      = (Except.error (IOErr.runtimeError "Extending an unwritten Dataset is not possible."), []) := by
  simp [extendDataset, hn, hw]

/-- Witness for C5 at a concrete unwritten node. -/
theorem extend_unwritten_dataset_fails_witness :
    getNode exBase 2 = some exUnwritten ∧ exUnwritten.written = false
    ∧ extendDataset exBase 2 { name := some "x", extent := some [8] }
      = (Except.error (IOErr.runtimeError "Extending an unwritten Dataset is not possible."), []) :=
  ⟨by decide, by decide,
   extend_unwritten_dataset_fails exBase 2 { name := some "x", extent := some [8] }
     exUnwritten (by decide) (by decide)⟩

/-- Claim C6: every DELETE_* handler under read-only access fails up front
with a logic error and emits no backend call; since an erroring handler
returns no new state, node state and storage are unchanged. -/
theorem delete_read_only_fails_before_backend (st : HandlerState) (wid : Nat)
    (p : ArgumentMap) (h : st.accessType = AccessType.READ_ONLY) :
    deleteFile st wid p
      = (Except.error (IOErr.runtimeError "Deleting a file opened as read only is not possible."), [])
    ∧ deletePath st wid p
      = (Except.error (IOErr.runtimeError "Deleting a path in a file opened as read only is not possible."), [])
    ∧ deleteDataset st wid p
      = (Except.error (IOErr.runtimeError "Deleting a path in a file opened as read only is not possible."), [])
    ∧ deleteAttribute st wid p
      = (Except.error (IOErr.runtimeError "Deleting an attribute in a file opened as read only is not possible."), []) := by
  refine ⟨?_, ?_, ?_, ?_⟩ <;>
    simp [deleteFile, deletePath, deleteDataset, deleteAttribute, h]

/-- Witness for C6 at a concrete read-only state. -/
theorem delete_read_only_fails_before_backend_witness :
    ({ exBase with accessType := AccessType.READ_ONLY } : HandlerState).accessType
      = AccessType.READ_ONLY
    ∧ deleteFile { exBase with accessType := AccessType.READ_ONLY } 0 { name := some "f" }
      = (Except.error (IOErr.runtimeError "Deleting a file opened as read only is not possible."), []) :=
  ⟨by decide,
   (delete_read_only_fails_before_backend { exBase with accessType := AccessType.READ_ONLY }
      0 { name := some "f" } (by decide)).1⟩

/-- Claim C10: every DELETE_* handler under read-write access on a node with
written == false returns successfully with the state unchanged (no backend
call, no change to the node's written flag or position token). -/
theorem delete_unwritten_is_silent_noop (st : HandlerState) (wid : Nat)
    (p : ArgumentMap) (w : Writable) (ha : st.accessType = AccessType.READ_WRITE)
    (hn : getNode st wid = some w) (hw : w.written = false) :
    deleteFile st wid p = (Except.ok st, [])
    ∧ deletePath st wid p = (Except.ok st, [])
    ∧ deleteDataset st wid p = (Except.ok st, [])
    ∧ deleteAttribute st wid p = (Except.ok st, []) := by
  have hacc : ¬ st.accessType = AccessType.READ_ONLY := by simp [ha]
  refine ⟨?_, ?_, ?_, ?_⟩ <;>
    simp [deleteFile, deletePath, deleteDataset, deleteAttribute, hacc, hn, hw]

/-- Witness for C10 at a concrete unwritten node under read-write access. -/
theorem delete_unwritten_is_silent_noop_witness :
    exBase.accessType = AccessType.READ_WRITE
    ∧ getNode exBase 2 = some exUnwritten ∧ exUnwritten.written = false
    ∧ deleteFile exBase 2 { name := some "f" } = (Except.ok exBase, [])
    ∧ deleteAttribute exBase 2 { name := some "a" } = (Except.ok exBase, []) :=
  ⟨by decide, by decide, by decide,
   (delete_unwritten_is_silent_noop exBase 2 { name := some "f" } exUnwritten
      (by decide) (by decide) (by decide)).1,
   (delete_unwritten_is_silent_noop exBase 2 { name := some "a" } exUnwritten
      (by decide) (by decide) (by decide)).2.2.2⟩

/-- Claim C9: for every supported datatype and value, an Attribute constructed
from the value gives the value back when retrieved at its own tag, and
retrieval at any different tag fails with a datatype-mismatch error instead of
reinterpreting the stored payload. -/
theorem attribute_roundtrip_and_mismatch (v : AttrValue) (T : Datatype) :
    Attribute.get (tagOf v) (Attribute.fromValue v) = Except.ok v
    ∧ (T ≠ tagOf v →
        Attribute.get T (Attribute.fromValue v) = Except.error IOErr.datatypeMismatch) := by
  constructor
  · simp [Attribute.get, Attribute.fromValue]
  · intro h
    have h2 : ¬ tagOf v = T := fun hh => h hh.symm
    simp [Attribute.get, Attribute.fromValue, h2]

/-- Witness for C9 at a concrete int32 value retrieved as itself and as a
double. -/
theorem attribute_roundtrip_and_mismatch_witness :
    Datatype.DOUBLE ≠ tagOf (AttrValue.int32 5)
    ∧ Attribute.get (tagOf (AttrValue.int32 5)) (Attribute.fromValue (AttrValue.int32 5))
        = Except.ok (AttrValue.int32 5)
    ∧ Attribute.get Datatype.DOUBLE (Attribute.fromValue (AttrValue.int32 5))
        = Except.error IOErr.datatypeMismatch :=
  ⟨by decide,
   (attribute_roundtrip_and_mismatch (AttrValue.int32 5) Datatype.DOUBLE).1,
   (attribute_roundtrip_and_mismatch (AttrValue.int32 5) Datatype.DOUBLE).2 (by decide)⟩

/-- Auxiliary for C1: when the drain loop stops with an error, the queue
splits into successfully dispatched tasks, the failing task, and the untouched
tail; the failing task is popped exactly when the error is an
unsupported-data error. -/
theorem flushAux_error_split (w : List IOTask) : ∀ (st : HandlerState) (e : IOErr),
    (flushAux st w).error = some e →
    ∃ pre t rest, w = pre ++ t :: rest
      ∧ (flushAux st w).dispatched = pre ++ [t]
      ∧ (flushAux st w).state.work = if e.isUnsupportedData then rest else t :: rest := by
  induction w with
  | nil =>
    intro st e h
    simp [flushAux] at h
  | cons t rest ih =>
    intro st e h
    rcases hd : dispatch st t with ⟨res, evs⟩
    cases res with
    | ok st1 =>
      simp only [flushAux, hd] at h ⊢
      obtain ⟨pre, t2, rest2, hw, hdis, hst⟩ := ih { st1 with work := rest } e h
      exact ⟨t :: pre, t2, rest2, by rw [hw]; rfl, by rw [hdis]; rfl, hst⟩
    | error e0 =>
      simp only [flushAux, hd] at h ⊢
      obtain rfl : e0 = e := Option.some.inj h
      exact ⟨[], t, rest, rfl, rfl, rfl⟩

/-- Claim C1 (amended): when flush stops with an error e, the tasks before the
failing one were dispatched in order and it halts at the failing task; the
tasks enqueued after the failing one all remain in the queue for the next
flush; the failing task itself is removed only when e is an unsupported-data
error (the only exception kind the loop catches) — for every other error the
failing task also stays at the head of the queue and is retried. -/
theorem flush_failure_halts_and_pops_only_unsupported (st : HandlerState)
    (e : IOErr) (h : (flush st).error = some e) :
    ∃ pre t rest, st.work = pre ++ t :: rest
      ∧ (flush st).dispatched = pre ++ [t]
      ∧ (flush st).state.work = if e.isUnsupportedData then rest else t :: rest :=
  flushAux_error_split st.work st e h

/-- Witness for C1 at a concrete queue whose head task fails with a
non-unsupported error. -/
theorem flush_failure_halts_and_pops_only_unsupported_witness :
    (flush exFailSt).error
        = some (IOErr.runtimeError "Extending an unwritten Dataset is not possible.")
    ∧ ∃ pre t rest, exFailSt.work = pre ++ t :: rest
        ∧ (flush exFailSt).dispatched = pre ++ [t]
        ∧ (flush exFailSt).state.work
            = if (IOErr.runtimeError "Extending an unwritten Dataset is not possible.").isUnsupportedData
              then rest else t :: rest :=
  ⟨by decide,
   flush_failure_halts_and_pops_only_unsupported exFailSt
     (IOErr.runtimeError "Extending an unwritten Dataset is not possible.") (by decide)⟩

/-- Counterexample for C1 as stated: a queue whose single task fails (with an
error that is not an unsupported-data error) still contains that failed task
after flush — the failed task is not removed, contradicting the claim that
every failed task is removed from the queue. -/
theorem flush_nonunsupported_failure_stays_queued_cex :
    (flush exFailSt).error.isSome = true
    ∧ (flush exFailSt).dispatched = exFailSt.work
    ∧ (flush exFailSt).state.work = exFailSt.work
    ∧ exFailSt.work ≠ [] := by
  refine ⟨by decide, by decide, by decide, by decide⟩

/-- Auxiliary for C3: the drain loop dispatches a prefix of the queue, in
queue order. -/
theorem flushAux_dispatched_is_take (w : List IOTask) :
    ∀ st : HandlerState, ∃ n, (flushAux st w).dispatched = w.take n := by
  induction w with
  | nil =>
    intro st
    exact ⟨0, by simp [flushAux]⟩
  | cons t rest ih =>
    intro st
    rcases hd : dispatch st t with ⟨res, evs⟩
    cases res with
    | ok st1 =>
      obtain ⟨n, hn⟩ := ih { st1 with work := rest }
      refine ⟨n + 1, ?_⟩
      simp only [flushAux, hd, List.take]
      rw [hn]
    | error e0 =>
      exact ⟨1, by simp [flushAux, hd]⟩

/-- Claim C3: flush dispatches tasks in strict FIFO enqueue order — the
sequence of dispatched tasks is an in-order prefix of the queue, so no task is
dispatched before a task enqueued earlier. -/
theorem flush_dispatches_fifo_prefix (st : HandlerState) :
    ∃ n, (flush st).dispatched = st.work.take n :=
  flushAux_dispatched_is_take st.work st

set_option maxHeartbeats 1600000 in
/-- Claim C4: no handler that reaches backend storage (dataset creation,
dataset write, attribute write) ever performs a storage write carrying the
UNDEFINED datatype tag, whatever the state and parameters: createDataset
substitutes BOOL before creating, and writeDataset/writeAttribute reject
UNDEFINED before their write call. -/
theorem no_storage_write_with_undefined_datatype (st : HandlerState) (wid : Nat)
    (p : ArgumentMap) :
    ((createDataset st wid p).2.all (fun ev => !ev.undefWrite)) = true
    ∧ ((writeDataset st wid p).2.all (fun ev => !ev.undefWrite)) = true
    ∧ ((writeAttribute st wid p).2.all (fun ev => !ev.undefWrite)) = true := by
  refine ⟨?_, ?_, ?_⟩
  · unfold createDataset
    repeat' split
    all_goals try simp [Event.undefWrite]
    all_goals assumption
  · unfold writeDataset
    repeat' split
    all_goals try simp [Event.undefWrite]
    all_goals assumption
  · unfold writeAttribute
    cases hN : getNode st wid with
    | none => rfl
    | some w =>
      dsimp only
      cases hF : findFileId st wid w.parent with
      | none => rfl
      | some fid =>
        dsimp only
        cases hname : p.name with
        | none => rfl
        | some n =>
          dsimp only [argAt]
          cases hv : p.attributeValue with
          | none => rfl
          | some v =>
            dsimp only [argAt]
            cases hdt : p.dtype with
            | none => rfl
            | some dt =>
              dsimp only [argAt]
              cases dt <;>
                simp [Event.undefWrite, Attribute.get, Attribute.fromValue] <;>
                split_ifs <;>
                simp_all [Event.undefWrite, tagOf_beq_undefined]

/-- Claim C7 (amended): a successful DELETE on a written node resets written
to false and clears the position token for delete file, delete path and
delete dataset; delete attribute, however, leaves the target node's written
flag and position token untouched (it only removes the attribute from
storage).  Read-only access cannot reach these conclusions since the handlers
then fail. -/
theorem delete_resets_node_except_attribute (st : HandlerState) (wid : Nat)
    (p : ArgumentMap) (w : Writable) (hn : getNode st wid = some w)
    (hw : w.written = true) :
    (∀ s, (deleteFile st wid p).1 = Except.ok s →
        getNode s wid = some { w with written := false, abstractFilePosition := none })
    ∧ (∀ s, (deletePath st wid p).1 = Except.ok s →
        getNode s wid = some { w with written := false, abstractFilePosition := none })
    ∧ (∀ s, (deleteDataset st wid p).1 = Except.ok s →
        getNode s wid = some { w with written := false, abstractFilePosition := none })
    ∧ (∀ s, (deleteAttribute st wid p).1 = Except.ok s → getNode s wid = some w) := by
  refine ⟨?_, ?_, ?_, ?_⟩
  · intro s hs
    unfold deleteFile at hs
    rw [hn] at hs
    dsimp only at hs
    rw [hw] at hs
    simp at hs
    repeat' split at hs
    all_goals try simp at hs
    all_goals try subst hs
    all_goals simp [getNode, lookup_setAssoc_self]
  · intro s hs
    unfold deletePath at hs
    rw [hn] at hs
    dsimp only at hs
    rw [hw] at hs
    simp at hs
    repeat' split at hs
    all_goals try simp at hs
    all_goals try subst hs
    all_goals simp [getNode, lookup_setAssoc_self]
  · intro s hs
    unfold deleteDataset at hs
    rw [hn] at hs
    dsimp only at hs
    rw [hw] at hs
    simp at hs
    repeat' split at hs
    all_goals try simp at hs
    all_goals try subst hs
    all_goals simp [getNode, lookup_setAssoc_self]
  · intro s hs
    unfold deleteAttribute at hs
    rw [hn] at hs
    dsimp only at hs
    rw [hw] at hs
    simp at hs
    repeat' split at hs
    all_goals try simp at hs
    all_goals try subst hs
    all_goals simpa [getNode] using hn

/-- Witness for C7 at concrete successful deletions of a file, a path, a
dataset and an attribute. -/
theorem delete_resets_node_except_attribute_witness :
    getNode exAfterDeleteFile 0
        = some { exWritten with written := false, abstractFilePosition := none }
    ∧ getNode exAfterDeletePath 1
        = some { exChild with written := false, abstractFilePosition := none }
    ∧ getNode exAfterDeleteDataset 3
        = some { exDsNode with written := false, abstractFilePosition := none }
    ∧ getNode exAfterDeleteAttr 1 = some exChild :=
  ⟨(delete_resets_node_except_attribute exBase 0 { name := some "f" } exWritten
      (by decide) (by decide)).1 exAfterDeleteFile (by decide),
   (delete_resets_node_except_attribute exBase 1 { path := some "g" } exChild
      (by decide) (by decide)).2.1 exAfterDeletePath (by decide),
   (delete_resets_node_except_attribute exBase 3 { name := some "x" } exDsNode
      (by decide) (by decide)).2.2.1 exAfterDeleteDataset (by decide),
   (delete_resets_node_except_attribute exBase 1 { name := some "a" } exChild
      (by decide) (by decide)).2.2.2 exAfterDeleteAttr (by decide)⟩

/-- Counterexample for C7 as stated: deleting an attribute of a written node
under read-write access succeeds, yet the node's written flag stays true and
its position token stays set — DELETE_ATT does not reset the node, contrary
to the claim that every DELETE_* operation does. -/
theorem delete_attribute_leaves_node_marked_written_cex :
    (deleteAttribute exBase 1 { name := some "a" }).1.isOk = true
    ∧ ((deleteAttribute exBase 1 { name := some "a" }).1.toOption.bind
         (fun s => getNode s 1)).map (fun n => n.written) = some true
    ∧ ((deleteAttribute exBase 1 { name := some "a" }).1.toOption.bind
         (fun s => getNode s 1)).map (fun n => n.abstractFilePosition)
        = some (some "g/") := by
  refine ⟨by decide, by decide, by decide⟩

/-- Claim C8: the OPEN_* handlers never consult the target node's written
flag — their entire result is unchanged when the initial flag is flipped —
and on success they set written = true and assign a position token. -/
theorem open_handlers_ignore_written_and_set_it (st : HandlerState) (wid : Nat)
    (w : Writable) (b1 b2 : Bool) (p : ArgumentMap) :
    openFile { st with nodes := setAssoc wid { w with written := b1 } st.nodes } wid p
      = openFile { st with nodes := setAssoc wid { w with written := b2 } st.nodes } wid p
    ∧ openPath { st with nodes := setAssoc wid { w with written := b1 } st.nodes } wid p
      = openPath { st with nodes := setAssoc wid { w with written := b2 } st.nodes } wid p
    ∧ openDataset { st with nodes := setAssoc wid { w with written := b1 } st.nodes } wid p
      = openDataset { st with nodes := setAssoc wid { w with written := b2 } st.nodes } wid p
    ∧ (∀ s, (openFile st wid p).1 = Except.ok s →
        (getNode s wid).map (fun n => n.written) = some true
        ∧ (getNode s wid).map (fun n => n.abstractFilePosition.isSome) = some true)
    ∧ (∀ s, (openPath st wid p).1 = Except.ok s →
        (getNode s wid).map (fun n => n.written) = some true
        ∧ (getNode s wid).map (fun n => n.abstractFilePosition.isSome) = some true)
    ∧ (∀ s, (openDataset st wid p).1 = Except.ok s →
        (getNode s wid).map (fun n => n.written) = some true
        ∧ (getNode s wid).map (fun n => n.abstractFilePosition.isSome) = some true) := by
  refine ⟨?_, ?_, ?_, ?_, ?_, ?_⟩
  · unfold openFile
    simp only [getNode]
    try dsimp only
    rw [lookup_setAssoc_self, lookup_setAssoc_self]
    try dsimp only
    simp only [setAssoc_setAssoc]
  · unfold openPath
    simp only [getNode]
    try dsimp only
    rw [lookup_setAssoc_self, lookup_setAssoc_self]
    try dsimp only
    simp only [setAssoc_setAssoc]
    simp [concretePosition, posView, setAssoc]
    try rfl
  · unfold openDataset
    simp only [getNode]
    try dsimp only
    rw [lookup_setAssoc_self, lookup_setAssoc_self]
    try dsimp only
    simp only [setAssoc_setAssoc]
    simp [concretePosition, posView, setAssoc]
    try rfl
  · intro s hs
    unfold openFile at hs
    repeat' split at hs
    all_goals try simp at hs
    all_goals try (repeat' split at hs)
    all_goals try simp at hs
    all_goals try (repeat' split at hs)
    all_goals try simp at hs
    all_goals try subst hs
    all_goals simp [getNode, lookup_setAssoc_self]
  · intro s hs
    unfold openPath at hs
    repeat' split at hs
    all_goals try simp at hs
    all_goals try (repeat' split at hs)
    all_goals try simp at hs
    all_goals try (repeat' split at hs)
    all_goals try simp at hs
    all_goals try subst hs
    all_goals simp [getNode, lookup_setAssoc_self]
  · intro s hs
    unfold openDataset at hs
    repeat' split at hs
    all_goals try simp at hs
    all_goals try (repeat' split at hs)
    all_goals try simp at hs
    all_goals try (repeat' split at hs)
    all_goals try simp at hs
    all_goals try subst hs
    all_goals simp [getNode, lookup_setAssoc_self]

/-- Witness for C8 at a concrete state: an openFile result identical for both
initial written flags, and successful openFile/openPath/openDataset runs whose
result nodes are written with a position token. -/
theorem open_handlers_ignore_written_and_set_it_witness :
    openFile { exBase with nodes := setAssoc 2 { exUnwritten with written := true } exBase.nodes }
        2 { name := some "f" }
      = openFile { exBase with nodes := setAssoc 2 { exUnwritten with written := false } exBase.nodes }
        2 { name := some "f" }
    ∧ ((getNode exAfterOpenFile 2).map (fun n => n.written) = some true
       ∧ (getNode exAfterOpenFile 2).map (fun n => n.abstractFilePosition.isSome) = some true)
    ∧ ((getNode exAfterOpenPath 4).map (fun n => n.written) = some true
       ∧ (getNode exAfterOpenPath 4).map (fun n => n.abstractFilePosition.isSome) = some true)
    ∧ ((getNode exAfterOpenDataset 5).map (fun n => n.written) = some true
       ∧ (getNode exAfterOpenDataset 5).map (fun n => n.abstractFilePosition.isSome) = some true) :=
  ⟨(open_handlers_ignore_written_and_set_it exBase 2 exUnwritten true false
      { name := some "f" }).1,
   (open_handlers_ignore_written_and_set_it exBase 2 exUnwritten true false
      { name := some "f" }).2.2.2.1 exAfterOpenFile (by decide),
   (open_handlers_ignore_written_and_set_it exBase 4 exChildUnwritten true false
      { path := some "g" }).2.2.2.2.1 exAfterOpenPath (by decide),
   (open_handlers_ignore_written_and_set_it exBase 5 exChildUnwritten true false
      { name := some "x" }).2.2.2.2.2 exAfterOpenDataset (by decide)⟩

end OpenPMD
